import Mathlib

/-!
Verification of the retrieval-augmented chat backend
(`backend/loader.py`, `backend/chat_persistence.py`, `backend/app.py`).

The Python sources are shallowly embedded below.  Pure string and list
manipulations become Lean functions over `String`, `List` and `Rat`;
database state (sessions and messages) becomes an explicit record that is
threaded through the handlers; the external language model is an arbitrary
function from prompt to response text (blocking) or to a list of response
chunks (streaming).  The third-party vector index (faiss `IndexFlatL2`) and
the embedding model are external collaborators and are modelled from the
specification contract for the Vector Index and Embedding Model components.
-/

namespace Chatbot

/-- Embedding of Python `str.strip()`: drop leading and trailing whitespace,
working directly on the character list so that the kernel can evaluate it. -/
def pyStrip (s : String) : String :=
  ⟨((s.data.dropWhile Char.isWhitespace).reverse.dropWhile Char.isWhitespace).reverse⟩

/-- Modelled from the spec: a built vector index is the ordered list of the
float vectors that were added to it (faiss `IndexFlatL2` state). -/
structure FaissIndex where
  vectors : List (List Rat)
deriving DecidableEq

/-- Modelled from the spec: squared Euclidean (L2) distance between two
vectors, the fixed metric of the Vector Index component. -/
def sqL2 (q v : List Rat) : Rat :=
  ((q.zip v).map (fun p => (p.1 - p.2) * (p.1 - p.2))).sum

/-- Ordering on search hits `(ordinal, distance)`: ascending distance, ties
broken by the lowest ordinal, as the Vector Index contract requires. -/
def hitLE (a b : Nat × Rat) : Prop :=
  a.2 < b.2 ∨ (a.2 = b.2 ∧ a.1 ≤ b.1)

instance : DecidableRel hitLE := fun a b => by
  unfold hitLE; exact inferInstance

instance : IsTotal (Nat × Rat) hitLE := ⟨by
  intro a b
  rcases lt_trichotomy a.2 b.2 with h | h | h
  · exact Or.inl (Or.inl h)
  · rcases Nat.le_total a.1 b.1 with h1 | h1
    · exact Or.inl (Or.inr ⟨h, h1⟩)
    · exact Or.inr (Or.inr ⟨h.symm, h1⟩)
  · exact Or.inr (Or.inl h)⟩

instance : IsTrans (Nat × Rat) hitLE := ⟨by
  intro a b c hab hbc
  rcases hab with h1 | ⟨e1, l1⟩ <;> rcases hbc with h2 | ⟨e2, l2⟩
  · exact Or.inl (lt_trans h1 h2)
  · exact Or.inl (lt_of_lt_of_eq h1 e2)
  · exact Or.inl (lt_of_eq_of_lt e1 h2)
  · exact Or.inr ⟨e1.trans e2, le_trans l1 l2⟩⟩

/-- Modelled from the spec: `index.search(query_vector, k)` of the Vector
Index returns the `(ordinal, distance)` pairs of the stored vectors sorted by
ascending distance (ties by lowest ordinal), truncated to `k` entries. -/
def faissSearch (index : FaissIndex) (q : List Rat) (k : Nat) : List (Nat × Rat) :=
  (List.insertionSort hitLE
    ((List.range index.vectors.length).map
      (fun i => (i, sqL2 q (index.vectors.getD i []))))).take k

/-- Modelled from the spec: building the Vector Index bulk-loads the passage
embeddings in order (`faiss.IndexFlatL2(dim)` followed by `index.add`). -/
def build_index (embeddings : List (List Rat)) : FaissIndex :=
  ⟨embeddings⟩

/-! ### `backend/loader.py` -/

/-- `loader.read_pdf_pages`: per-page extracted text (the `raw` list stands
for `p.extract_text() or ""` of each page) is stripped, and pages whose text
is empty after stripping are dropped. -/
def read_pdf_pages (raw : List String) : List String :=
  (raw.map pyStrip).filter (fun t => !(t == ""))

/-- `loader.build_index_from_pdf`: extract pages, fail (`RuntimeError`,
embedded as `none`) when no page has text, else embed all pages in order and
bulk-load them into a fresh index. -/
def build_index_from_pdf (raw : List String) (model : String → List Rat) :
    Option (FaissIndex × List String) :=
  let pages := read_pdf_pages raw
  if pages.isEmpty then none
  else some (build_index (pages.map model), pages)

/-- The two persisted artifact files of `loader.py`; `none` stands for an
absent file. -/
structure Store where
  faiss_file : Option FaissIndex
  texts_file : Option (List String)
deriving DecidableEq

/-- `loader.load_index`: when both artifact files exist, read and return them
as they are; otherwise report a miss.  The source performs no consistency
check between the loaded index and the loaded passage list. -/
def load_index (s : Store) : Option (FaissIndex × List String) :=
  match s.faiss_file, s.texts_file with
  | some index, some pages => some (index, pages)
  | _, _ => none

/-- `loader.build_or_load_index`: return the loaded artifacts when the load
reports a hit, else rebuild from the PDF. -/
def build_or_load_index (s : Store) (raw : List String) (model : String → List Rat) :
    Option (FaissIndex × List String) :=
  match load_index s with
  | some (index, pages) => some (index, pages)
  | none => build_index_from_pdf raw model

/-- `loader.similarity_search`: embed the query, run the index search with
`top_k`, and keep `pages[idx]` for every returned ordinal `idx` with
`idx < len(pages)`. -/
def similarity_search (index : FaissIndex) (pages : List String)
    (model : String → List Rat) (query : String) (top_k : Nat) : List String :=
  let hits := faissSearch index (model query) top_k
  (hits.filter (fun h => decide (h.1 < pages.length))).map (fun h => pages.getD h.1 "")

/-! ### `backend/chat_persistence.py` -/

/-- A row of the `chat_sessions` table (the fields the handlers read). -/
structure SessionRec where
  id : Nat
  user_id : Nat
  title : String
deriving DecidableEq

/-- A row of the `chat_messages` table.  Timestamps are modelled by list
position: `DB.messages` is kept in insertion order, which is chronological
order. -/
structure MessageRec where
  session_id : Nat
  role : String
  content : String
deriving DecidableEq

/-- The relational store seen through the persistence manager: all session
rows, all message rows in chronological order, and the next session id the
database would assign. -/
structure DB where
  sessions : List SessionRec
  messages : List MessageRec
  nextSessionId : Nat
deriving DecidableEq

/-- `ChatPersistenceManager.create_session`: insert a new session row owned
by `uid` with the given title and return it with its assigned id. -/
def create_session (db : DB) (uid : Nat) (title : String) : DB × SessionRec :=
  let s : SessionRec := { id := db.nextSessionId, user_id := uid, title := title }
  ({ db with sessions := db.sessions ++ [s], nextSessionId := db.nextSessionId + 1 }, s)

/-- `ChatPersistenceManager.save_message`: append a message row for the
session; its timestamp is the current end of the chronological order. -/
def save_message (db : DB) (sid : Nat) (role content : String) : DB :=
  { db with messages := db.messages ++ [⟨sid, role, content⟩] }

/-- `ChatPersistenceManager.format_messages_for_llm`: render each message as
`"<Role>: <content>"` with role `user` mapped to `User` and anything else to
`Assistant`, joined by blank lines. -/
def format_messages_for_llm (messages : List MessageRec) : String :=
  String.intercalate "\n\n"
    (messages.map (fun m => (if m.role == "user" then "User" else "Assistant") ++ ": " ++ m.content))

/-- `ChatPersistenceManager.get_recent_context`: the session messages ordered
by descending timestamp, limited to `limit`, reversed back to chronological
order, then formatted. -/
def get_recent_context (db : DB) (sid : Nat) (limit : Nat) : String :=
  let msgs := db.messages.filter (fun m => m.session_id == sid)
  let recent := (msgs.reverse.take limit).reverse
  format_messages_for_llm recent

/-! ### `backend/app.py` -/

/-- `app.format_context`: join the retrieved passages with the
`"\n\n---\n\n"` separator in search-result order. -/
def format_context (results : List String) : String :=
  String.intercalate "\n\n---\n\n" results

/-- The `ChatRequest` body: question text, `top_k` (default 3), optional
session id. -/
structure ChatReq where
  user : String
  top_k : Nat
  session_id : Option Nat
deriving DecidableEq

/-- Result of the blocking `/api/chat` endpoint.  `reply0` is the bare
`{"reply": ...}` short-circuit for empty input; `serverError` is the HTTP 500
raised by the catch-all handler around the whole body (it carries the string
form of the exception it caught); `ok` is the normal
`{reply, sources_used, session_id}` response. -/
inductive ChatOutcome where
  | reply0 (text : String)
  | serverError (caught : String)
  | ok (reply : String) (sources_used : List String) (session_id : Nat)
deriving DecidableEq

/-- One server-sent event of `/api/chat/stream`: a content fragment or the
final completion marker carrying the session id. -/
inductive StreamEvent where
  | data (piece : String)
  | done (session_id : Nat)
deriving DecidableEq

/-- Result of `/api/chat/stream`: an HTTP error raised before streaming
starts, or the full event sequence of the consumed stream. -/
inductive StreamOutcome where
  | httpError (status : Nat) (detail : String)
  | events (evs : List StreamEvent)
deriving DecidableEq

/-- Python truthiness of the optional `session_id` field: `None` and `0` are
falsy, every other integer is truthy. -/
def truthy : Option Nat → Bool
  | none => false
  | some n => !(n == 0)

/-- The session-resolution block shared verbatim by both handlers:
`if not session_id:` create a session titled by the first 50 characters of
the question (ellipsis-suffixed when longer than 50), else look the id up
filtered by the requesting owner; a failed lookup is a not-found failure
(`none`). -/
def resolveSession (db : DB) (uid : Nat) (sid? : Option Nat) (user_msg : String) :
    Option (DB × Nat) :=
  if truthy sid? then
    match db.sessions.find? (fun s => s.id == sid?.getD 0 && s.user_id == uid) with
    | some _ => some (db, sid?.getD 0)
    | none => none
  else
    let title := if user_msg.length > 50 then user_msg.take 50 ++ "..." else user_msg
    let r := create_session db uid title
    some (r.1, r.2.id)

/-- The prompt assembly block, identical in both handlers: the three fixed
system lines, then the optional recent-conversation part, then the optional
document-context part, then the question and the answer cue, joined by
newlines (`"\n".join(prompt_parts)`). -/
def build_prompt (recent_context context_text user_msg : String) : String :=
  let base :=
    ["You are an assistant that answers customer questions strictly using the provided company/document context and recent conversation history.",
     "If the answer cannot be found in the context, reply exactly: \"Sorry, I don\x27t have that information.\"",
     "Be concise and helpful.\n"]
  let p1 := if !(recent_context == "") then
      base ++ ["RECENT CONVERSATION:\n" ++ recent_context ++ "\n"] else base
  let p2 := if !(context_text == "") then
      p1 ++ ["DOCUMENT CONTEXT:\n" ++ context_text ++ "\n"] else p1
  String.intercalate "\n" (p2 ++ ["Question: " ++ user_msg ++ "\n", "Answer:"])

/-- The blocking `/api/chat` handler.  `gen` is the external language model
(`ollama.generate`), mapping the prompt to the raw response text.  Note that
the inner 404 raised on a failed session lookup is caught by the surrounding
`except Exception` block and re-raised as an HTTP 500 whose detail carries
the string form of the caught exception. -/
def chat (index : FaissIndex) (pages : List String) (embed_model : String → List Rat)
    (gen : String → String) (req : ChatReq) (uid : Nat) (db : DB) : ChatOutcome × DB :=
  let user_msg := pyStrip req.user
  if user_msg == "" then (ChatOutcome.reply0 "Please send a non-empty question.", db)
  else
    match resolveSession db uid req.session_id user_msg with
    | none => (ChatOutcome.serverError "404: Session not found", db)
    | some (db1, sid) =>
      let db2 := save_message db1 sid "user" user_msg
      let recent_context := get_recent_context db2 sid 5
      let results := similarity_search index pages embed_model user_msg req.top_k
      let context_text := if results.isEmpty then "" else format_context results
      let prompt := build_prompt recent_context context_text user_msg
      let answer := pyStrip (gen prompt)
      let db3 := save_message db2 sid "assistant" answer
      if pyStrip context_text == "" then
        (ChatOutcome.ok "Sorry, I don\x27t have that information." [] sid, db3)
      else
        (ChatOutcome.ok answer results sid, db3)

/-- The streaming `/api/chat/stream` handler.  `gen_stream` is the external
language model in streaming mode (`ollama.generate(..., stream=True)`),
mapping the prompt to the finite list of chunk texts.  The generator emits
every non-empty chunk as a `data` event, persists the stripped concatenation
of the emitted chunks as the assistant message, and ends with the `done`
event carrying the session id.  No fallback override is applied here. -/
def chat_stream (index : FaissIndex) (pages : List String) (embed_model : String → List Rat)
    (gen_stream : String → List String) (req : ChatReq) (uid : Nat) (db : DB) :
    StreamOutcome × DB :=
  let user_msg := pyStrip req.user
  if user_msg == "" then (StreamOutcome.httpError 400 "Empty message", db)
  else
    match resolveSession db uid req.session_id user_msg with
    | none => (StreamOutcome.httpError 404 "Session not found", db)
    | some (db1, sid) =>
      let db2 := save_message db1 sid "user" user_msg
      let results := similarity_search index pages embed_model user_msg req.top_k
      let context_text := if results.isEmpty then "" else format_context results
      let recent_context := get_recent_context db2 sid 5
      let prompt := build_prompt recent_context context_text user_msg
      let pieces := (gen_stream prompt).filter (fun p => !(p == ""))
      let final_text := pyStrip (String.join pieces)
      let db3 := save_message db2 sid "assistant" final_text
      (StreamOutcome.events (pieces.map StreamEvent.data ++ [StreamEvent.done sid]), db3)

/-! ### Theorems -/

theorem pyStrip_empty : pyStrip "" = "" := rfl

/-- C3 counterexample: a persisted index holding two vectors next to a
passage list holding one passage is returned as a cache hit by
`build_or_load_index`, even though the counts differ and a rebuild from the
PDF (which would yield one vector and the passage `"b"`) was available. -/
theorem load_mismatch_returns_cached_cex :
    build_or_load_index ⟨some ⟨[[(0 : Rat)], [1]]⟩, some ["a"]⟩ ["b"] (fun _ => [0]) =
      some (⟨[[(0 : Rat)], [1]]⟩, ["a"]) ∧
    (⟨[[(0 : Rat)], [1]]⟩ : FaissIndex).vectors.length ≠ (["a"] : List String).length ∧
    build_index_from_pdf ["b"] (fun _ => [(0 : Rat)]) = some (⟨[[(0 : Rat)]]⟩, ["b"]) := by
  refine ⟨rfl, by decide, rfl⟩

/-- C3 (amended): the startup load returns the cached artifacts whenever both
persisted files are present, performing no vector-count versus passage-count
consistency check; a full rebuild from the PDF happens exactly when at least
one artifact file is absent. -/
theorem build_or_load_no_count_check (index : FaissIndex) (pages : List String)
    (f : Option FaissIndex) (t : Option (List String)) (raw : List String)
    (model : String → List Rat) :
    build_or_load_index ⟨some index, some pages⟩ raw model = some (index, pages) ∧
    build_or_load_index ⟨none, t⟩ raw model = build_index_from_pdf raw model ∧
    build_or_load_index ⟨f, none⟩ raw model = build_index_from_pdf raw model := by
  refine ⟨rfl, rfl, ?_⟩
  cases f <;> rfl

/-- C6: a question that is empty after stripping short-circuits both
handlers: the blocking path answers with the prompt-for-input reply and the
streaming path raises HTTP 400; in both cases the database is returned
unchanged (no session created, no message persisted), and the result does not
depend on the index, the corpus, the embedding model or the language model,
so no retrieval and no generation takes place. -/
theorem empty_question_short_circuit (index : FaissIndex) (pages : List String)
    (em : String → List Rat) (gen : String → String) (gs : String → List String)
    (req : ChatReq) (uid : Nat) (db : DB)
    (h : pyStrip req.user = "") :
    chat index pages em gen req uid db =
      (ChatOutcome.reply0 "Please send a non-empty question.", db) ∧
    chat_stream index pages em gs req uid db =
      (StreamOutcome.httpError 400 "Empty message", db) := by
  have hb : (pyStrip req.user == "") = true := by simp [h]
  constructor <;> simp [chat, chat_stream, hb]

/-- C6 witness: a whitespace-only question on concrete inputs. -/
theorem empty_question_short_circuit_witness :
    pyStrip "  " = "" ∧
    (chat (build_index []) [] (fun _ => [(0 : Rat)]) (fun _ => "yo")
        ⟨"  ", 3, none⟩ 1 ⟨[], [], 1⟩ =
      (ChatOutcome.reply0 "Please send a non-empty question.", ⟨[], [], 1⟩) ∧
    chat_stream (build_index []) [] (fun _ => [(0 : Rat)]) (fun _ => ["yo"])
        ⟨"  ", 3, none⟩ 1 ⟨[], [], 1⟩ =
      (StreamOutcome.httpError 400 "Empty message", ⟨[], [], 1⟩)) :=
  ⟨by decide,
   empty_question_short_circuit (build_index []) [] (fun _ => [(0 : Rat)]) (fun _ => "yo")
     (fun _ => ["yo"]) ⟨"  ", 3, none⟩ 1 ⟨[], [], 1⟩ (by decide)⟩

/-- C4: when no session id is supplied and the stripped question is
non-empty, both handlers create exactly one new session, owned by the
requesting user, titled with the first 50 characters of the question followed
by an ellipsis when the question is longer than 50 characters, and with the
full question otherwise. -/
theorem new_session_title_rule (index : FaissIndex) (pages : List String)
    (em : String → List Rat) (gen : String → String) (gs : String → List String)
    (req : ChatReq) (uid : Nat) (db : DB)
    (h1 : req.session_id = none) (h2 : ¬(pyStrip req.user = "")) :
    (chat index pages em gen req uid db).2.sessions =
      db.sessions ++ [⟨db.nextSessionId, uid,
        if (pyStrip req.user).length > 50
        then (pyStrip req.user).take 50 ++ "..." else pyStrip req.user⟩] ∧
    (chat_stream index pages em gs req uid db).2.sessions =
      db.sessions ++ [⟨db.nextSessionId, uid,
        if (pyStrip req.user).length > 50
        then (pyStrip req.user).take 50 ++ "..." else pyStrip req.user⟩] := by
  have hb : (pyStrip req.user == "") = false := beq_eq_false_iff_ne.mpr h2
  constructor <;>
    · simp only [chat, chat_stream, hb, Bool.false_eq_true, if_false, h1,
        resolveSession, truthy, Bool.if_false_left]
      split <;> (try split) <;> simp [save_message, create_session]

/-- C4 witness: a short question on concrete inputs creates a session titled
with the question itself. -/
theorem new_session_title_rule_witness :
    (⟨"hi", 3, none⟩ : ChatReq).session_id = none ∧ ¬(pyStrip "hi" = "") ∧
    ((chat (build_index []) [] (fun _ => [(0 : Rat)]) (fun _ => "yo")
        ⟨"hi", 3, none⟩ 1 ⟨[], [], 1⟩).2.sessions =
      ([] : List SessionRec) ++ [⟨1, 1,
        if (pyStrip "hi").length > 50
        then (pyStrip "hi").take 50 ++ "..." else pyStrip "hi"⟩] ∧
    (chat_stream (build_index []) [] (fun _ => [(0 : Rat)]) (fun _ => ["yo"])
        ⟨"hi", 3, none⟩ 1 ⟨[], [], 1⟩).2.sessions =
      ([] : List SessionRec) ++ [⟨1, 1,
        if (pyStrip "hi").length > 50
        then (pyStrip "hi").take 50 ++ "..." else pyStrip "hi"⟩]) :=
  ⟨rfl, by decide,
   new_session_title_rule (build_index []) [] (fun _ => [(0 : Rat)]) (fun _ => "yo")
     (fun _ => ["yo"]) ⟨"hi", 3, none⟩ 1 ⟨[], [], 1⟩ rfl (by decide)⟩

/-- C5 counterexample: the request supplies session id `0`, which belongs to
no one (the store is empty), yet neither path fails with a not-found error:
because Python `if not session_id:` treats `0` like an absent id, the
blocking handler creates a fresh session, persists both the user message and
the assistant answer, and replies normally. -/
theorem foreign_session_cex :
    chat (build_index []) [] (fun _ => [(0 : Rat)]) (fun _ => "yo")
        ⟨"hi", 3, some 0⟩ 7 ⟨[], [], 1⟩ =
      (ChatOutcome.ok "Sorry, I don\x27t have that information." [] 1,
        ⟨[⟨1, 7, "hi"⟩], [⟨1, "user", "hi"⟩, ⟨1, "assistant", "yo"⟩], 2⟩) ∧
    ∀ s ∈ (⟨[], [], 1⟩ : DB).sessions, ¬(s.id = 0 ∧ s.user_id = 7) := by
  exact ⟨by decide, by simp⟩

/-- C5 (amended): for a request with a non-empty question supplying a
NONZERO session id that belongs to no session of the requesting user, the
streaming path fails with HTTP 404 and the blocking path fails with an HTTP
500 server error wrapping the caught not-found exception (the catch-all
`except Exception` swallows the inner 404); in both paths the database is
returned unchanged, so no session is created and no message is persisted. -/
theorem foreign_session_rejected (index : FaissIndex) (pages : List String)
    (em : String → List Rat) (gen : String → String) (gs : String → List String)
    (req : ChatReq) (uid : Nat) (db : DB) (sid : Nat)
    (h0 : req.session_id = some sid) (hnz : sid ≠ 0)
    (hown : ∀ s ∈ db.sessions, ¬(s.id = sid ∧ s.user_id = uid))
    (h1 : ¬(pyStrip req.user = "")) :
    chat index pages em gen req uid db =
      (ChatOutcome.serverError "404: Session not found", db) ∧
    chat_stream index pages em gs req uid db =
      (StreamOutcome.httpError 404 "Session not found", db) := by
  have hb : (pyStrip req.user == "") = false := beq_eq_false_iff_ne.mpr h1
  have hfind : db.sessions.find? (fun s => s.id == sid && s.user_id == uid) = none := by
    rw [List.find?_eq_none]
    intro s hs
    simpa [Bool.and_eq_true] using hown s hs
  have hres : resolveSession db uid req.session_id (pyStrip req.user) = none := by
    simp [resolveSession, truthy, h0, hnz, hfind]
  constructor <;> simp [chat, chat_stream, hb, hres]

/-- C5 witness: session 1 belongs to user 5; user 7 requests it. -/
theorem foreign_session_rejected_witness :
    (⟨"hi", 3, some 1⟩ : ChatReq).session_id = some 1 ∧ (1 : Nat) ≠ 0 ∧
    (∀ s ∈ (⟨[⟨1, 5, "t"⟩], [], 2⟩ : DB).sessions, ¬(s.id = 1 ∧ s.user_id = 7)) ∧
    ¬(pyStrip "hi" = "") ∧
    (chat (build_index []) [] (fun _ => [(0 : Rat)]) (fun _ => "yo")
        ⟨"hi", 3, some 1⟩ 7 ⟨[⟨1, 5, "t"⟩], [], 2⟩ =
      (ChatOutcome.serverError "404: Session not found", ⟨[⟨1, 5, "t"⟩], [], 2⟩) ∧
    chat_stream (build_index []) [] (fun _ => [(0 : Rat)]) (fun _ => ["yo"])
        ⟨"hi", 3, some 1⟩ 7 ⟨[⟨1, 5, "t"⟩], [], 2⟩ =
      (StreamOutcome.httpError 404 "Session not found", ⟨[⟨1, 5, "t"⟩], [], 2⟩)) :=
  ⟨rfl, by decide, by decide, by decide,
   foreign_session_rejected (build_index []) [] (fun _ => [(0 : Rat)]) (fun _ => "yo")
     (fun _ => ["yo"]) ⟨"hi", 3, some 1⟩ 7 ⟨[⟨1, 5, "t"⟩], [], 2⟩ 1
     rfl (by decide) (by decide) (by decide)⟩

/-- C2 counterexample: on an empty corpus the retrieval returns zero
passages, yet the streaming path forwards the model output `"Hello"` to the
client verbatim — the user-visible streamed reply is not the fallback
sentence. -/
theorem stream_no_fallback_override_cex :
    (chat_stream (build_index []) [] (fun _ => [(0 : Rat)]) (fun _ => ["Hello"])
        ⟨"hi", 3, none⟩ 1 ⟨[], [], 1⟩).1 =
      StreamOutcome.events [StreamEvent.data "Hello", StreamEvent.done 1] ∧
    similarity_search (build_index []) [] (fun _ => [(0 : Rat)]) (pyStrip "hi") 3 = [] ∧
    "Hello" ≠ "Sorry, I don\x27t have that information." := by
  refine ⟨by decide, rfl, by decide⟩

/-- C2 (amended): when retrieval returns zero passages, the blocking path
replies exactly with the fallback sentence regardless of the model output,
but the streaming path applies no override: it streams exactly the non-empty
chunks produced by the model, followed by the completion marker. -/
theorem zero_passages_fallback_blocking_only (index : FaissIndex) (pages : List String)
    (em : String → List Rat) (gen : String → String) (gs : String → List String)
    (req : ChatReq) (uid : Nat) (db db1 : DB) (sid : Nat)
    (h1 : ¬(pyStrip req.user = ""))
    (h2 : resolveSession db uid req.session_id (pyStrip req.user) = some (db1, sid))
    (h3 : similarity_search index pages em (pyStrip req.user) req.top_k = []) :
    (chat index pages em gen req uid db).1 =
      ChatOutcome.ok "Sorry, I don\x27t have that information." [] sid ∧
    (chat_stream index pages em gs req uid db).1 =
      StreamOutcome.events
        (((gs (build_prompt
            (get_recent_context (save_message db1 sid "user" (pyStrip req.user)) sid 5)
            "" (pyStrip req.user))).filter (fun p => !(p == ""))).map StreamEvent.data ++
          [StreamEvent.done sid]) := by
  have hb : (pyStrip req.user == "") = false := beq_eq_false_iff_ne.mpr h1
  constructor <;> simp [chat, chat_stream, hb, h2, h3, pyStrip_empty]

/-- C2 witness: empty corpus, question `"hi"`, model chunks `["Hello"]`. -/
theorem zero_passages_fallback_blocking_only_witness :
    ¬(pyStrip "hi" = "") ∧
    resolveSession ⟨[], [], 1⟩ 1 none (pyStrip "hi") =
      some (⟨[⟨1, 1, "hi"⟩], [], 2⟩, 1) ∧
    similarity_search (build_index []) [] (fun _ => [(0 : Rat)]) (pyStrip "hi") 3 = [] ∧
    ((chat (build_index []) [] (fun _ => [(0 : Rat)]) (fun _ => "yo")
        ⟨"hi", 3, none⟩ 1 ⟨[], [], 1⟩).1 =
      ChatOutcome.ok "Sorry, I don\x27t have that information." [] 1 ∧
    (chat_stream (build_index []) [] (fun _ => [(0 : Rat)]) (fun _ => ["Hello"])
        ⟨"hi", 3, none⟩ 1 ⟨[], [], 1⟩).1 =
      StreamOutcome.events
        ((((fun _ => ["Hello"]) (build_prompt
            (get_recent_context (save_message ⟨[⟨1, 1, "hi"⟩], [], 2⟩ 1 "user" (pyStrip "hi")) 1 5)
            "" (pyStrip "hi")) : List String).filter (fun p => !(p == ""))).map StreamEvent.data ++
          [StreamEvent.done 1])) :=
  ⟨by decide, by decide, rfl,
   zero_passages_fallback_blocking_only (build_index []) [] (fun _ => [(0 : Rat)])
     (fun _ => "yo") (fun _ => ["Hello"]) ⟨"hi", 3, none⟩ 1 ⟨[], [], 1⟩
     ⟨[⟨1, 1, "hi"⟩], [], 2⟩ 1 (by decide) (by decide) rfl⟩

/-- C7: for every blocking chat request that passes validation and session
resolution, the persisted assistant message content is the stripped raw model
output for the prompt actually sent, appended after the user message; and
when retrieval returned zero passages the client-visible reply is
nevertheless the fallback sentence — so the stored assistant message is
written before (and unaffected by) the fallback override. -/
theorem assistant_message_stores_raw_answer (index : FaissIndex) (pages : List String)
    (em : String → List Rat) (gen : String → String)
    (req : ChatReq) (uid : Nat) (db db1 : DB) (sid : Nat)
    (h1 : ¬(pyStrip req.user = ""))
    (h2 : resolveSession db uid req.session_id (pyStrip req.user) = some (db1, sid)) :
    (chat index pages em gen req uid db).2.messages =
      db1.messages ++
        [⟨sid, "user", pyStrip req.user⟩,
         ⟨sid, "assistant", pyStrip (gen (build_prompt
            (get_recent_context (save_message db1 sid "user" (pyStrip req.user)) sid 5)
            (if (similarity_search index pages em (pyStrip req.user) req.top_k).isEmpty
             then ""
             else format_context (similarity_search index pages em (pyStrip req.user) req.top_k))
            (pyStrip req.user)))⟩] ∧
    (similarity_search index pages em (pyStrip req.user) req.top_k = [] →
      (chat index pages em gen req uid db).1 =
        ChatOutcome.ok "Sorry, I don\x27t have that information." [] sid) := by
  have hb : (pyStrip req.user == "") = false := beq_eq_false_iff_ne.mpr h1
  constructor
  · simp only [chat, hb, Bool.false_eq_true, if_false, h2]
    split <;> (try split) <;> simp_all [save_message, pyStrip_empty]
  · intro h3
    simp [chat, hb, h2, h3, pyStrip_empty]

/-- C7 witness: empty corpus, concrete model output `" raw "` is stored
stripped as `"raw"` while the client sees the fallback sentence. -/
theorem assistant_message_stores_raw_answer_witness :
    ¬(pyStrip "hi" = "") ∧
    resolveSession ⟨[], [], 1⟩ 1 none (pyStrip "hi") = some (⟨[⟨1, 1, "hi"⟩], [], 2⟩, 1) ∧
    ((chat (build_index []) [] (fun _ => [(0 : Rat)]) (fun _ => " raw ")
        ⟨"hi", 3, none⟩ 1 ⟨[], [], 1⟩).2.messages =
      (⟨[⟨1, 1, "hi"⟩], [], 2⟩ : DB).messages ++
        [⟨1, "user", pyStrip "hi"⟩,
         ⟨1, "assistant", pyStrip ((fun _ => " raw ") (build_prompt
            (get_recent_context (save_message ⟨[⟨1, 1, "hi"⟩], [], 2⟩ 1 "user" (pyStrip "hi")) 1 5)
            (if (similarity_search (build_index []) [] (fun _ => [(0 : Rat)]) (pyStrip "hi") 3).isEmpty
             then ""
             else format_context (similarity_search (build_index []) [] (fun _ => [(0 : Rat)]) (pyStrip "hi") 3))
            (pyStrip "hi")))⟩] ∧
    (similarity_search (build_index []) [] (fun _ => [(0 : Rat)]) (pyStrip "hi") 3 = [] →
      (chat (build_index []) [] (fun _ => [(0 : Rat)]) (fun _ => " raw ")
          ⟨"hi", 3, none⟩ 1 ⟨[], [], 1⟩).1 =
        ChatOutcome.ok "Sorry, I don\x27t have that information." [] 1)) :=
  ⟨by decide, by decide,
   assistant_message_stores_raw_answer (build_index []) [] (fun _ => [(0 : Rat)])
     (fun _ => " raw ") ⟨"hi", 3, none⟩ 1 ⟨[], [], 1⟩ ⟨[⟨1, 1, "hi"⟩], [], 2⟩ 1
     (by decide) (by decide)⟩

/-- C10: in the blocking path, even with zero retrieved passages the language
model is still invoked on the assembled prompt — both the user message and
the stripped raw model answer are persisted — and the response carries the
fallback reply, an empty `sources_used` list and the resolved session id. -/
theorem zero_passages_full_flow (index : FaissIndex) (pages : List String)
    (em : String → List Rat) (gen : String → String)
    (req : ChatReq) (uid : Nat) (db db1 : DB) (sid : Nat)
    (h1 : ¬(pyStrip req.user = ""))
    (h2 : resolveSession db uid req.session_id (pyStrip req.user) = some (db1, sid))
    (h3 : similarity_search index pages em (pyStrip req.user) req.top_k = []) :
    chat index pages em gen req uid db =
      (ChatOutcome.ok "Sorry, I don\x27t have that information." [] sid,
       { db1 with messages := db1.messages ++
          [⟨sid, "user", pyStrip req.user⟩,
           ⟨sid, "assistant", pyStrip (gen (build_prompt
              (get_recent_context (save_message db1 sid "user" (pyStrip req.user)) sid 5)
              "" (pyStrip req.user)))⟩] }) := by
  have hb : (pyStrip req.user == "") = false := beq_eq_false_iff_ne.mpr h1
  simp [chat, hb, h2, h3, pyStrip_empty, save_message]

/-- C10 witness: empty corpus, model output `"yo"`. -/
theorem zero_passages_full_flow_witness :
    ¬(pyStrip "hi" = "") ∧
    resolveSession ⟨[], [], 1⟩ 1 none (pyStrip "hi") = some (⟨[⟨1, 1, "hi"⟩], [], 2⟩, 1) ∧
    similarity_search (build_index []) [] (fun _ => [(0 : Rat)]) (pyStrip "hi") 3 = [] ∧
    chat (build_index []) [] (fun _ => [(0 : Rat)]) (fun _ => "yo")
        ⟨"hi", 3, none⟩ 1 ⟨[], [], 1⟩ =
      (ChatOutcome.ok "Sorry, I don\x27t have that information." [] 1,
       { (⟨[⟨1, 1, "hi"⟩], [], 2⟩ : DB) with messages :=
          (⟨[⟨1, 1, "hi"⟩], [], 2⟩ : DB).messages ++
            [⟨1, "user", pyStrip "hi"⟩,
             ⟨1, "assistant", pyStrip ((fun _ => "yo") (build_prompt
                (get_recent_context (save_message ⟨[⟨1, 1, "hi"⟩], [], 2⟩ 1 "user" (pyStrip "hi")) 1 5)
                "" (pyStrip "hi")))⟩] }) :=
  ⟨by decide, by decide, rfl,
   zero_passages_full_flow (build_index []) [] (fun _ => [(0 : Rat)]) (fun _ => "yo")
     ⟨"hi", 3, none⟩ 1 ⟨[], [], 1⟩ ⟨[⟨1, 1, "hi"⟩], [], 2⟩ 1 (by decide) (by decide) rfl⟩

set_option maxRecDepth 4096

theorem intercalate_go_append (sep x : String) (as : List String) (acc : String) :
    String.intercalate.go acc sep (as ++ [x]) =
      String.intercalate.go acc sep as ++ sep ++ x := by
  induction as generalizing acc with
  | nil => simp [String.intercalate.go]
  | cons a t ih => simp [String.intercalate.go, ih]

theorem intercalate_append_singleton (sep : String) (xs : List String) (x : String) :
    String.intercalate sep (xs ++ [x]) =
      (if xs.isEmpty then "" else String.intercalate sep xs ++ sep) ++ x := by
  cases xs with
  | nil => simp [String.intercalate, String.intercalate.go]
  | cons a t => simp [String.intercalate, intercalate_go_append]

/-- Spelling out `build_prompt` as one flat concatenation: system lines in
fixed order, then the optional recent-conversation block, then the optional
document-context block, then the question, then the answer cue. -/
theorem build_prompt_eq (r c q : String) :
    build_prompt r c q =
      "You are an assistant that answers customer questions strictly using the provided company/document context and recent conversation history." ++
      "\n" ++
      "If the answer cannot be found in the context, reply exactly: \"Sorry, I don\x27t have that information.\"" ++
      "\n" ++ "Be concise and helpful.\n" ++ "\n" ++
      (if r = "" then "" else "RECENT CONVERSATION:\n" ++ r ++ "\n" ++ "\n") ++
      (if c = "" then "" else "DOCUMENT CONTEXT:\n" ++ c ++ "\n" ++ "\n") ++
      "Question: " ++ q ++ "\n" ++ "\n" ++ "Answer:" := by
  by_cases hr : r = "" <;> by_cases hc : c = "" <;>
    simp [build_prompt, hr, hc, String.intercalate, String.intercalate.go,
      String.append_assoc] <;> rfl

/-- C8: for every validated question, the prompt the blocking handler sends
to the model is the fixed-order concatenation of the system instruction
(with the exact fallback sentence and the conciseness directive), the
recent-conversation block (omitted entirely when the recent context is
empty), the document-context block holding the retrieved passages joined by
`"\n\n---\n\n"` in search-result order (omitted entirely when no passage was
retrieved), the question, and the `Answer:` cue; the assistant message the
handler persists is the stripped model output for exactly that prompt. -/
theorem prompt_fixed_order (index : FaissIndex) (pages : List String)
    (em : String → List Rat) (gen : String → String)
    (req : ChatReq) (uid : Nat) (db db1 : DB) (sid : Nat)
    (R C : String) (results : List String)
    (h1 : ¬(pyStrip req.user = ""))
    (h2 : resolveSession db uid req.session_id (pyStrip req.user) = some (db1, sid))
    (hres : results = similarity_search index pages em (pyStrip req.user) req.top_k)
    (hR : R = get_recent_context (save_message db1 sid "user" (pyStrip req.user)) sid 5)
    (hC : C = if results.isEmpty then "" else String.intercalate "\n\n---\n\n" results) :
    build_prompt R C (pyStrip req.user) =
      "You are an assistant that answers customer questions strictly using the provided company/document context and recent conversation history." ++
      "\n" ++
      "If the answer cannot be found in the context, reply exactly: \"Sorry, I don\x27t have that information.\"" ++
      "\n" ++ "Be concise and helpful.\n" ++ "\n" ++
      (if R = "" then "" else "RECENT CONVERSATION:\n" ++ R ++ "\n" ++ "\n") ++
      (if C = "" then "" else "DOCUMENT CONTEXT:\n" ++ C ++ "\n" ++ "\n") ++
      "Question: " ++ pyStrip req.user ++ "\n" ++ "\n" ++ "Answer:" ∧
    (chat index pages em gen req uid db).2.messages.getLast? =
      some ⟨sid, "assistant", pyStrip (gen (build_prompt R C (pyStrip req.user)))⟩ := by
  have hb : (pyStrip req.user == "") = false := beq_eq_false_iff_ne.mpr h1
  constructor
  · exact build_prompt_eq R C (pyStrip req.user)
  · subst hres hR hC
    simp only [chat, hb, Bool.false_eq_true, if_false, h2, format_context]
    split <;> (try split) <;> simp_all [save_message, pyStrip_empty, format_context]

/-- C8 witness: one-passage corpus, question `"hi"`; all defining equations
hold by `rfl`. -/
theorem prompt_fixed_order_witness :
    ¬(pyStrip "hi" = "") ∧
    resolveSession ⟨[], [], 1⟩ 1 none (pyStrip "hi") = some (⟨[⟨1, 1, "hi"⟩], [], 2⟩, 1) ∧
    similarity_search (build_index (["p"].map (fun _ => [(0 : Rat)]))) ["p"]
        (fun _ => [(0 : Rat)]) (pyStrip "hi") 3 =
      similarity_search (build_index (["p"].map (fun _ => [(0 : Rat)]))) ["p"]
        (fun _ => [(0 : Rat)]) (pyStrip "hi") 3 ∧
    (build_prompt
        (get_recent_context (save_message ⟨[⟨1, 1, "hi"⟩], [], 2⟩ 1 "user" (pyStrip "hi")) 1 5)
        (if (similarity_search (build_index (["p"].map (fun _ => [(0 : Rat)]))) ["p"]
              (fun _ => [(0 : Rat)]) (pyStrip "hi") 3).isEmpty
         then ""
         else String.intercalate "\n\n---\n\n"
            (similarity_search (build_index (["p"].map (fun _ => [(0 : Rat)]))) ["p"]
              (fun _ => [(0 : Rat)]) (pyStrip "hi") 3))
        (pyStrip "hi") =
      "You are an assistant that answers customer questions strictly using the provided company/document context and recent conversation history." ++
      "\n" ++
      "If the answer cannot be found in the context, reply exactly: \"Sorry, I don\x27t have that information.\"" ++
      "\n" ++ "Be concise and helpful.\n" ++ "\n" ++
      (if get_recent_context (save_message ⟨[⟨1, 1, "hi"⟩], [], 2⟩ 1 "user" (pyStrip "hi")) 1 5 = ""
       then ""
       else "RECENT CONVERSATION:\n" ++
          get_recent_context (save_message ⟨[⟨1, 1, "hi"⟩], [], 2⟩ 1 "user" (pyStrip "hi")) 1 5 ++
          "\n" ++ "\n") ++
      (if (if (similarity_search (build_index (["p"].map (fun _ => [(0 : Rat)]))) ["p"]
              (fun _ => [(0 : Rat)]) (pyStrip "hi") 3).isEmpty
           then ""
           else String.intercalate "\n\n---\n\n"
              (similarity_search (build_index (["p"].map (fun _ => [(0 : Rat)]))) ["p"]
                (fun _ => [(0 : Rat)]) (pyStrip "hi") 3)) = ""
       then ""
       else "DOCUMENT CONTEXT:\n" ++
          (if (similarity_search (build_index (["p"].map (fun _ => [(0 : Rat)]))) ["p"]
                (fun _ => [(0 : Rat)]) (pyStrip "hi") 3).isEmpty
           then ""
           else String.intercalate "\n\n---\n\n"
              (similarity_search (build_index (["p"].map (fun _ => [(0 : Rat)]))) ["p"]
                (fun _ => [(0 : Rat)]) (pyStrip "hi") 3)) ++
          "\n" ++ "\n") ++
      "Question: " ++ pyStrip "hi" ++ "\n" ++ "\n" ++ "Answer:" ∧
    (chat (build_index (["p"].map (fun _ => [(0 : Rat)]))) ["p"] (fun _ => [(0 : Rat)])
        (fun _ => "yo") ⟨"hi", 3, none⟩ 1 ⟨[], [], 1⟩).2.messages.getLast? =
      some ⟨1, "assistant", pyStrip ((fun _ => "yo") (build_prompt
        (get_recent_context (save_message ⟨[⟨1, 1, "hi"⟩], [], 2⟩ 1 "user" (pyStrip "hi")) 1 5)
        (if (similarity_search (build_index (["p"].map (fun _ => [(0 : Rat)]))) ["p"]
              (fun _ => [(0 : Rat)]) (pyStrip "hi") 3).isEmpty
         then ""
         else String.intercalate "\n\n---\n\n"
            (similarity_search (build_index (["p"].map (fun _ => [(0 : Rat)]))) ["p"]
              (fun _ => [(0 : Rat)]) (pyStrip "hi") 3))
        (pyStrip "hi")))⟩) :=
  ⟨by decide, by decide, rfl,
   prompt_fixed_order (build_index (["p"].map (fun _ => [(0 : Rat)]))) ["p"]
     (fun _ => [(0 : Rat)]) (fun _ => "yo") ⟨"hi", 3, none⟩ 1 ⟨[], [], 1⟩
     ⟨[⟨1, 1, "hi"⟩], [], 2⟩ 1
     (get_recent_context (save_message ⟨[⟨1, 1, "hi"⟩], [], 2⟩ 1 "user" (pyStrip "hi")) 1 5)
     (if (similarity_search (build_index (["p"].map (fun _ => [(0 : Rat)]))) ["p"]
           (fun _ => [(0 : Rat)]) (pyStrip "hi") 3).isEmpty
      then ""
      else String.intercalate "\n\n---\n\n"
         (similarity_search (build_index (["p"].map (fun _ => [(0 : Rat)]))) ["p"]
           (fun _ => [(0 : Rat)]) (pyStrip "hi") 3))
     (similarity_search (build_index (["p"].map (fun _ => [(0 : Rat)]))) ["p"]
       (fun _ => [(0 : Rat)]) (pyStrip "hi") 3)
     (by decide) (by decide) rfl rfl rfl⟩

theorem format_messages_append_singleton (l : List MessageRec) (m : MessageRec) :
    format_messages_for_llm (l ++ [m]) =
      (if l.isEmpty then "" else format_messages_for_llm l ++ "\n\n") ++
        ((if m.role == "user" then "User" else "Assistant") ++ ": " ++ m.content) := by
  simp [format_messages_for_llm, intercalate_append_singleton]

/-- C9: since both handlers persist the current user message before fetching
recent context, the recent-conversation string is the blank-line-joined
rendering (roles mapped `user` to `User`, anything else to `Assistant`, in
chronological order) of at most four earlier messages followed by the
current question as its newest entry; and in both paths the assistant
message that reaches the database is the model output for the prompt built
from exactly that recent-context string. -/
theorem current_question_newest_in_recent (index : FaissIndex) (pages : List String)
    (em : String → List Rat) (gen : String → String) (gs : String → List String)
    (req : ChatReq) (uid : Nat) (db db1 : DB) (sid : Nat)
    (h1 : ¬(pyStrip req.user = ""))
    (h2 : resolveSession db uid req.session_id (pyStrip req.user) = some (db1, sid)) :
    (∃ prev : List MessageRec, prev.length ≤ 4 ∧
      get_recent_context (save_message db1 sid "user" (pyStrip req.user)) sid 5 =
        (if prev.isEmpty then "" else format_messages_for_llm prev ++ "\n\n") ++
          ("User: " ++ pyStrip req.user)) ∧
    (chat index pages em gen req uid db).2.messages.getLast? =
      some ⟨sid, "assistant", pyStrip (gen (build_prompt
        (get_recent_context (save_message db1 sid "user" (pyStrip req.user)) sid 5)
        (if (similarity_search index pages em (pyStrip req.user) req.top_k).isEmpty
         then ""
         else format_context (similarity_search index pages em (pyStrip req.user) req.top_k))
        (pyStrip req.user)))⟩ ∧
    (chat_stream index pages em gs req uid db).2.messages.getLast? =
      some ⟨sid, "assistant", pyStrip (String.join ((gs (build_prompt
        (get_recent_context (save_message db1 sid "user" (pyStrip req.user)) sid 5)
        (if (similarity_search index pages em (pyStrip req.user) req.top_k).isEmpty
         then ""
         else format_context (similarity_search index pages em (pyStrip req.user) req.top_k))
        (pyStrip req.user))).filter (fun p => !(p == ""))))⟩ := by
  have hb : (pyStrip req.user == "") = false := beq_eq_false_iff_ne.mpr h1
  refine ⟨⟨(((db1.messages.filter (fun m => m.session_id == sid)).reverse.take 4).reverse),
      ?_, ?_⟩, ?_, ?_⟩
  · simp [List.length_take]
  · simp only [get_recent_context, save_message, List.filter_append, List.filter_cons,
      List.filter_nil, beq_self_eq_true, if_true, List.reverse_append, List.reverse_cons,
      List.reverse_nil, List.nil_append, List.cons_append,
      show (5 : Nat) = 4 + 1 from rfl, List.take_succ_cons, format_messages_append_singleton]
    simp
  · simp only [chat, hb, Bool.false_eq_true, if_false, h2]
    split <;> (try split) <;> simp_all [save_message, pyStrip_empty]
  · simp only [chat_stream, hb, Bool.false_eq_true, if_false, h2]
    simp [save_message]

/-- C9 witness: concrete empty-corpus instance of both paths. -/
theorem current_question_newest_in_recent_witness :
    ¬(pyStrip "hi" = "") ∧
    resolveSession ⟨[], [], 1⟩ 1 none (pyStrip "hi") = some (⟨[⟨1, 1, "hi"⟩], [], 2⟩, 1) ∧
    ((∃ prev : List MessageRec, prev.length ≤ 4 ∧
      get_recent_context (save_message ⟨[⟨1, 1, "hi"⟩], [], 2⟩ 1 "user" (pyStrip "hi")) 1 5 =
        (if prev.isEmpty then "" else format_messages_for_llm prev ++ "\n\n") ++
          ("User: " ++ pyStrip "hi")) ∧
    (chat (build_index []) [] (fun _ => [(0 : Rat)]) (fun _ => "yo")
        ⟨"hi", 3, none⟩ 1 ⟨[], [], 1⟩).2.messages.getLast? =
      some ⟨1, "assistant", pyStrip ((fun _ => "yo") (build_prompt
        (get_recent_context (save_message ⟨[⟨1, 1, "hi"⟩], [], 2⟩ 1 "user" (pyStrip "hi")) 1 5)
        (if (similarity_search (build_index []) [] (fun _ => [(0 : Rat)]) (pyStrip "hi") 3).isEmpty
         then ""
         else format_context (similarity_search (build_index []) [] (fun _ => [(0 : Rat)]) (pyStrip "hi") 3))
        (pyStrip "hi")))⟩ ∧
    (chat_stream (build_index []) [] (fun _ => [(0 : Rat)]) (fun _ => ["yo"])
        ⟨"hi", 3, none⟩ 1 ⟨[], [], 1⟩).2.messages.getLast? =
      some ⟨1, "assistant", pyStrip (String.join ((((fun _ => ["yo"]) (build_prompt
        (get_recent_context (save_message ⟨[⟨1, 1, "hi"⟩], [], 2⟩ 1 "user" (pyStrip "hi")) 1 5)
        (if (similarity_search (build_index []) [] (fun _ => [(0 : Rat)]) (pyStrip "hi") 3).isEmpty
         then ""
         else format_context (similarity_search (build_index []) [] (fun _ => [(0 : Rat)]) (pyStrip "hi") 3))
        (pyStrip "hi")) : List String)).filter (fun p => !(p == ""))))⟩) :=
  ⟨by decide, by decide,
   current_question_newest_in_recent (build_index []) [] (fun _ => [(0 : Rat)])
     (fun _ => "yo") (fun _ => ["yo"]) ⟨"hi", 3, none⟩ 1 ⟨[], [], 1⟩
     ⟨[⟨1, 1, "hi"⟩], [], 2⟩ 1 (by decide) (by decide)⟩

/-- C1: querying an index built over the corpus of `n = pages.length`
passages with any query and any requested `k ≥ 1` returns at most
`min k n` passage texts, each the text of a passage with ordinal below `n`
(ordinals at or above `n` are filtered out by `similarity_search`), in
non-decreasing order of the true squared-L2 distance between the query
embedding and the corresponding passage embedding. -/
theorem similarity_search_bounded_sorted (pages : List String) (em : String → List Rat)
    (query : String) (k : Nat) (hk : 1 ≤ k) :
    ∃ hits : List (Nat × Rat),
      similarity_search (build_index (pages.map em)) pages em query k =
        hits.map (fun h => pages.getD h.1 "") ∧
      hits.length ≤ min k pages.length ∧
      (∀ h ∈ hits, h.1 < pages.length) ∧
      List.Pairwise (fun a b : Nat × Rat => a.2 ≤ b.2) hits ∧
      (∀ h ∈ hits, h.2 = sqL2 (em query) ((pages.map em).getD h.1 [])) := by
  have hlen : (build_index (pages.map em)).vectors.length = pages.length := by
    simp [build_index]
  have hmem_scored : ∀ h ∈ (List.range (build_index (pages.map em)).vectors.length).map
      (fun i => (i, sqL2 (em query) ((build_index (pages.map em)).vectors.getD i []))),
      h.1 < pages.length ∧ h.2 = sqL2 (em query) ((pages.map em).getD h.1 []) := by
    intro h hmem
    rcases List.mem_map.mp hmem with ⟨i, hi, rfl⟩
    rw [List.mem_range] at hi
    exact ⟨by simpa [hlen] using hi, rfl⟩
  have hperm := List.perm_insertionSort hitLE
    ((List.range (build_index (pages.map em)).vectors.length).map
      (fun i => (i, sqL2 (em query) ((build_index (pages.map em)).vectors.getD i []))))
  have hmem_take : ∀ h ∈ faissSearch (build_index (pages.map em)) (em query) k,
      h.1 < pages.length ∧ h.2 = sqL2 (em query) ((pages.map em).getD h.1 []) := by
    intro h hmem
    exact hmem_scored h (hperm.mem_iff.mp (List.mem_of_mem_take hmem))
  refine ⟨faissSearch (build_index (pages.map em)) (em query) k, ?_, ?_, ?_, ?_, ?_⟩
  · have hfilter : (faissSearch (build_index (pages.map em)) (em query) k).filter
        (fun h => decide (h.1 < pages.length)) =
        faissSearch (build_index (pages.map em)) (em query) k :=
      List.filter_eq_self.mpr (fun a ha => decide_eq_true (hmem_take a ha).1)
    simp [similarity_search, hfilter]
  · have : (faissSearch (build_index (pages.map em)) (em query) k).length =
        min k pages.length := by
      simp [faissSearch, List.length_take, hperm.length_eq, hlen]
    exact le_of_eq this
  · exact fun h hm => (hmem_take h hm).1
  · have hsorted := List.sorted_insertionSort hitLE
      ((List.range (build_index (pages.map em)).vectors.length).map
        (fun i => (i, sqL2 (em query) ((build_index (pages.map em)).vectors.getD i []))))
    have hp : List.Pairwise hitLE (faissSearch (build_index (pages.map em)) (em query) k) :=
      List.Pairwise.sublist (List.take_sublist _ _) hsorted
    exact hp.imp (fun hab => by
      rcases hab with hlt | ⟨heq, _⟩
      · exact le_of_lt hlt
      · exact le_of_eq heq)
  · exact fun h hm => (hmem_take h hm).2

/-- C1 witness: a one-passage corpus queried with `k = 1`. -/
theorem similarity_search_bounded_sorted_witness :
    1 ≤ 1 ∧
    ∃ hits : List (Nat × Rat),
      similarity_search (build_index (["a"].map (fun _ => [(0 : Rat)]))) ["a"]
          (fun _ => [(0 : Rat)]) "q" 1 =
        hits.map (fun h => (["a"] : List String).getD h.1 "") ∧
      hits.length ≤ min 1 (["a"] : List String).length ∧
      (∀ h ∈ hits, h.1 < (["a"] : List String).length) ∧
      List.Pairwise (fun a b : Nat × Rat => a.2 ≤ b.2) hits ∧
      (∀ h ∈ hits, h.2 = sqL2 ((fun _ => [(0 : Rat)]) "q")
        ((["a"].map (fun _ => [(0 : Rat)])).getD h.1 [])) :=
  ⟨by decide,
   similarity_search_bounded_sorted ["a"] (fun _ => [(0 : Rat)]) "q" 1 (by decide)⟩

end Chatbot
